import Mathlib

/-!
Verification of the convenience-store checkout core
(`src/Assignment3/convenience_store/{shopping_cart,payment,database}.py`).

Python methods that mutate `self` and return a value are embedded as pure
functions returning a pair `(returned value, new object state)`.  Python `int`
is embedded as `Int`; monetary `float` amounts are embedded as `Rat` (no
arithmetic is performed on them by the properties below, only copying).
`datetime.now()` fields are omitted from the embedding: no verified property
depends on them.
-/

set_option autoImplicit false

/-- Modelled from the spec: `product.py` is not under `src/` (only its callers
are).  §3/§6 of the spec give the contract used by the cart: a `Product` has an
identifier, a unit price and an integer stock, and `is_available()` is true iff
`stock > 0`. -/
structure Product where
  product_id : Int
  unit_price : Rat
  stock : Int
  deriving DecidableEq, Repr

/-- Modelled from the spec: `is_available() -> bool` (true iff stock > 0). -/
def Product.is_available (p : Product) : Bool :=
  decide (0 < p.stock)

/-- Modelled from the spec: `order_item.py` is not under `src/`.  §2/§3: an
`OrderItem` binds a product reference to an integer quantity. -/
structure OrderItem where
  product : Product
  quantity : Int
  deriving DecidableEq, Repr

/-- Modelled from the spec, §4.1: `update_quantity(new_quantity)` replaces the
quantity unconditionally (validation is the cart's responsibility). -/
def OrderItem.update_quantity (item : OrderItem) (new_quantity : Int) : OrderItem :=
  { item with quantity := new_quantity }

/-- Modelled from the spec, §4.1: line total = quantity × current unit price. -/
def OrderItem.get_line_total (item : OrderItem) : Rat :=
  item.quantity * item.product.unit_price

/-- `ShoppingCart.__init__`: a customer id and an ordered list of items
(`shopping_cart.py`, lines 11-13). -/
structure ShoppingCart where
  customer_id : Int
  items : List OrderItem
  deriving DecidableEq, Repr

/-- The `for item in self.items` loop of `add_item` (`shopping_cart.py`,
lines 23-27): the first item whose product id matches gets
`update_quantity(item.quantity + quantity)` and the loop returns; if no item
matches, the loop falls through (`none`). -/
def mergeLoop (product : Product) (quantity : Int) : List OrderItem → Option (List OrderItem)
  | [] => none
  | item :: rest =>
    if item.product.product_id = product.product_id then
      some (item.update_quantity (item.quantity + quantity) :: rest)
    else
      (mergeLoop product quantity rest).map (fun tail => item :: tail)

/-- `ShoppingCart.add_item` (`shopping_cart.py`, lines 15-31): fail if the
product is unavailable or the requested quantity exceeds its stock; otherwise
merge into an existing line for the same product id, or append a new line. -/
def ShoppingCart.add_item (cart : ShoppingCart) (product : Product) (quantity : Int) :
    Bool × ShoppingCart :=
  if !product.is_available then
    (false, cart)
  else if product.stock < quantity then
    (false, cart)
  else
    match mergeLoop product quantity cart.items with
    | some items => (true, { cart with items := items })
    | none => (true, { cart with items := cart.items ++ [⟨product, quantity⟩] })

/-- The scan of `remove_item` (`shopping_cart.py`, lines 35-38): drop the first
item whose product id matches; `none` when no item matches. -/
def removeLoop (product_id : Int) : List OrderItem → Option (List OrderItem)
  | [] => none
  | item :: rest =>
    if item.product.product_id = product_id then
      some rest
    else
      (removeLoop product_id rest).map (fun tail => item :: tail)

/-- `ShoppingCart.remove_item` (`shopping_cart.py`, lines 33-39). -/
def ShoppingCart.remove_item (cart : ShoppingCart) (product_id : Int) :
    Bool × ShoppingCart :=
  match removeLoop product_id cart.items with
  | some items => (true, { cart with items := items })
  | none => (false, cart)

/-- The loop of `update_item_quantity` (`shopping_cart.py`, lines 46-50): the
update fires on the first item whose product id matches AND whose product stock
admits the new quantity; note the source continues scanning (rather than
failing) when the id matches but the stock check fails. -/
def updateLoop (product_id quantity : Int) : List OrderItem → Option (List OrderItem)
  | [] => none
  | item :: rest =>
    if item.product.product_id = product_id ∧ quantity ≤ item.product.stock then
      some (item.update_quantity quantity :: rest)
    else
      (updateLoop product_id quantity rest).map (fun tail => item :: tail)

/-- `ShoppingCart.update_item_quantity` (`shopping_cart.py`, lines 41-51):
`quantity <= 0` delegates to `remove_item`; otherwise update the first line
allowed by the stock check, returning `False` if none is. -/
def ShoppingCart.update_item_quantity (cart : ShoppingCart) (product_id quantity : Int) :
    Bool × ShoppingCart :=
  if quantity ≤ 0 then
    cart.remove_item product_id
  else
    match updateLoop product_id quantity cart.items with
    | some items => (true, { cart with items := items })
    | none => (false, cart)

/-- `ShoppingCart.get_total` (`shopping_cart.py`, lines 53-55). -/
def ShoppingCart.get_total (cart : ShoppingCart) : Rat :=
  (cart.items.map OrderItem.get_line_total).sum

/-- `ShoppingCart.get_item_count` (`shopping_cart.py`, lines 57-59). -/
def ShoppingCart.get_item_count (cart : ShoppingCart) : Int :=
  (cart.items.map OrderItem.quantity).sum

/-! ### Claims C3 and C5 -/

/-- Claim C3: for every cart state, product, and quantity, if the product is
unavailable (stock = 0) or the quantity exceeds the product's current stock,
`add_item` returns false and the cart's line sequence is exactly the same as
before the call. -/
theorem claim_C3_add_item_fails_unchanged (cart : ShoppingCart) (product : Product)
    (quantity : Int) (h : product.stock = 0 ∨ product.stock < quantity) :
    cart.add_item product quantity = (false, cart) := by
  rcases h with h | h
  · simp [ShoppingCart.add_item, Product.is_available, h]
  · rcases le_or_lt product.stock 0 with h0 | h0
    · simp [ShoppingCart.add_item, Product.is_available, not_lt.mpr h0]
    · simp [ShoppingCart.add_item, Product.is_available, h0, h]

/-- Witness for C3: a product with stock 5 and a request for 6 is refused and
the cart (here holding one unrelated line) is unchanged. -/
theorem claim_C3_witness :
    ((5 : Int) = 0 ∨ (5 : Int) < 6) ∧
      ShoppingCart.add_item ⟨1, [⟨⟨2, 1, 9⟩, 3⟩]⟩ ⟨7, 2, 5⟩ 6 =
        (false, ⟨1, [⟨⟨2, 1, 9⟩, 3⟩]⟩) :=
  ⟨Or.inr (by decide), claim_C3_add_item_fails_unchanged ⟨1, [⟨⟨2, 1, 9⟩, 3⟩]⟩ ⟨7, 2, 5⟩ 6
    (Or.inr (by decide))⟩

/-- Claim C5: for every cart state, product id and quantity `q ≤ 0`,
`update_item_quantity product_id q` is observationally identical to
`remove_item product_id`: the same boolean result and the same cart state. -/
theorem claim_C5_nonpositive_update_is_remove (cart : ShoppingCart)
    (product_id quantity : Int) (h : quantity ≤ 0) :
    cart.update_item_quantity product_id quantity = cart.remove_item product_id := by
  simp [ShoppingCart.update_item_quantity, h]

/-- Witness for C5: on a concrete one-line cart, updating to quantity `-5`
(and to `0`) removes the line exactly as `remove_item` does. -/
theorem claim_C5_witness :
    ((-5 : Int) ≤ 0) ∧
      ShoppingCart.update_item_quantity ⟨1, [⟨⟨2, 1, 9⟩, 3⟩]⟩ 2 (-5) =
        ShoppingCart.remove_item ⟨1, [⟨⟨2, 1, 9⟩, 3⟩]⟩ 2 :=
  ⟨by decide, claim_C5_nonpositive_update_is_remove ⟨1, [⟨⟨2, 1, 9⟩, 3⟩]⟩ 2 (-5) (by decide)⟩

/-! ### Claim C1: the quantity-vs-stock invariant -/

/-- The invariant claimed by the spec for `OrderItem`: no line's quantity
exceeds its product's stock. -/
def cartInv (cart : ShoppingCart) : Prop :=
  ∀ item ∈ cart.items, item.quantity ≤ item.product.stock

/-- Every element of a successful `removeLoop` result was in the input list. -/
theorem removeLoop_mem {product_id : Int} {l l' : List OrderItem}
    (h : removeLoop product_id l = some l') : ∀ x ∈ l', x ∈ l := by
  induction l generalizing l' with
  | nil => simp [removeLoop] at h
  | cons item rest ih =>
    by_cases hid : item.product.product_id = product_id
    · simp only [removeLoop, if_pos hid, Option.some.injEq] at h
      subst h
      intro x hx
      exact List.mem_cons_of_mem _ hx
    · simp only [removeLoop, if_neg hid, Option.map_eq_some'] at h
      obtain ⟨tail, htail, rfl⟩ := h
      intro x hx
      rcases List.mem_cons.mp hx with rfl | hx
      · exact List.mem_cons_self _ _
      · exact List.mem_cons_of_mem _ (ih htail x hx)

/-- Every element of a successful `updateLoop` result was in the input list,
or is the updated item, whose new quantity passed the stock check. -/
theorem updateLoop_mem {product_id quantity : Int} {l l' : List OrderItem}
    (h : updateLoop product_id quantity l = some l') :
    ∀ x ∈ l', x ∈ l ∨ (x.quantity = quantity ∧ quantity ≤ x.product.stock) := by
  induction l generalizing l' with
  | nil => simp [updateLoop] at h
  | cons item rest ih =>
    by_cases hg : item.product.product_id = product_id ∧ quantity ≤ item.product.stock
    · simp only [updateLoop, if_pos hg, Option.some.injEq] at h
      subst h
      intro x hx
      rcases List.mem_cons.mp hx with rfl | hx
      · exact Or.inr ⟨rfl, hg.2⟩
      · exact Or.inl (List.mem_cons_of_mem _ hx)
    · simp only [updateLoop, if_neg hg, Option.map_eq_some'] at h
      obtain ⟨tail, htail, rfl⟩ := h
      intro x hx
      rcases List.mem_cons.mp hx with rfl | hx
      · exact Or.inl (List.mem_cons_self _ _)
      · rcases ih htail x hx with hx' | hx'
        · exact Or.inl (List.mem_cons_of_mem _ hx')
        · exact Or.inr hx'

/-- When no line matches the product's id, the merge loop falls through. -/
theorem mergeLoop_eq_none {product : Product} {quantity : Int} {l : List OrderItem}
    (h : ∀ item ∈ l, item.product.product_id ≠ product.product_id) :
    mergeLoop product quantity l = none := by
  induction l with
  | nil => rfl
  | cons item rest ih =>
    simp only [mergeLoop, if_neg (h item (List.mem_cons_self _ _)),
      ih (fun i hi => h i (List.mem_cons_of_mem _ hi)), Option.map_none']

/-- Counterexample to claim C1: with stock 50, `add_item(p, 30)` twice both
succeed, and the merged line holds quantity 60, exceeding the stock read at
the time of the second mutation. -/
theorem claim_C1_counterexample :
    ((ShoppingCart.add_item ((ShoppingCart.add_item ⟨1, []⟩ ⟨1, 3, 50⟩ 30).2)
        ⟨1, 3, 50⟩ 30).1 = true) ∧
      ∃ item ∈ (ShoppingCart.add_item ((ShoppingCart.add_item ⟨1, []⟩ ⟨1, 3, 50⟩ 30).2)
        ⟨1, 3, 50⟩ 30).2.items, item.product.stock < item.quantity := by
  refine ⟨rfl, ⟨⟨⟨1, 3, 50⟩, 60⟩, ?_, by decide⟩⟩
  simp [ShoppingCart.add_item, Product.is_available, mergeLoop, OrderItem.update_quantity]

/-- Amended claim C1: `update_item_quantity` always preserves the
quantity-within-stock invariant, and `add_item` preserves it when the cart has
no existing line for the product (the merging case re-checks only the added
increment against stock, so it can break the invariant, as the counterexample
shows). -/
theorem claim_C1_amended_invariant_preservation :
    (∀ (cart : ShoppingCart) (product_id quantity : Int),
        cartInv cart → cartInv (cart.update_item_quantity product_id quantity).2) ∧
      (∀ (cart : ShoppingCart) (product : Product) (quantity : Int),
        cartInv cart →
        (∀ item ∈ cart.items, item.product.product_id ≠ product.product_id) →
        cartInv (cart.add_item product quantity).2) := by
  constructor
  · intro cart product_id quantity hinv
    unfold ShoppingCart.update_item_quantity
    split
    · unfold ShoppingCart.remove_item
      rcases hrem : removeLoop product_id cart.items with _ | items
      · exact hinv
      · intro x hx
        exact hinv x (removeLoop_mem hrem x hx)
    · rcases hupd : updateLoop product_id quantity cart.items with _ | items
      · exact hinv
      · intro x hx
        rcases updateLoop_mem hupd x hx with hmem | ⟨hq, hs⟩
        · exact hinv x hmem
        · rw [hq]; exact hs
  · intro cart product quantity hinv hno
    unfold ShoppingCart.add_item
    split
    · exact hinv
    · split
      · exact hinv
      · rw [mergeLoop_eq_none hno]
        intro x hx
        rcases List.mem_append.mp hx with hmem | hmem
        · exact hinv x hmem
        · rcases List.mem_singleton.mp hmem with rfl
          next h0 h1 => exact not_lt.mp h1

/-- Witness for the amended C1: starting from a concrete cart satisfying the
invariant, an `update_item_quantity` and a fresh `add_item` both keep it. -/
theorem claim_C1_amended_witness :
    cartInv ((ShoppingCart.update_item_quantity ⟨1, [⟨⟨2, 1, 9⟩, 3⟩]⟩ 2 7).2) ∧
      cartInv ((ShoppingCart.add_item ⟨1, [⟨⟨2, 1, 9⟩, 3⟩]⟩ ⟨5, 2, 4⟩ 4).2) :=
  ⟨claim_C1_amended_invariant_preservation.1 ⟨1, [⟨⟨2, 1, 9⟩, 3⟩]⟩ 2 7
      (by intro x hx; rcases List.mem_singleton.mp hx with rfl; decide),
    claim_C1_amended_invariant_preservation.2 ⟨1, [⟨⟨2, 1, 9⟩, 3⟩]⟩ ⟨5, 2, 4⟩ 4
      (by intro x hx; rcases List.mem_singleton.mp hx with rfl; decide)
      (by intro x hx; rcases List.mem_singleton.mp hx with rfl; decide)⟩

/-! ### Claim C4: duplicate adds merge into one line -/

/-- When no line of `l` matches the product id but the appended line `x` does,
the merge loop updates exactly `x`. -/
theorem mergeLoop_append_match (product : Product) (quantity : Int)
    {l : List OrderItem} (x : OrderItem)
    (hno : ∀ item ∈ l, item.product.product_id ≠ product.product_id)
    (hx : x.product.product_id = product.product_id) :
    mergeLoop product quantity (l ++ [x]) =
      some (l ++ [x.update_quantity (x.quantity + quantity)]) := by
  induction l with
  | nil => simp [mergeLoop, hx]
  | cons item rest ih =>
    simp only [List.cons_append, mergeLoop, List.append_eq,
      if_neg (hno item (List.mem_cons_self _ _)),
      ih (fun i hi => hno i (List.mem_cons_of_mem _ hi)), Option.map_some']

/-- Claim C4: on a cart with no line for the product, adding quantities `q1`
then `q2` (both at least 1, with `q1 + q2` within stock) succeeds twice and
yields the original lines plus exactly one line for the product, carrying
quantity `q1 + q2`. -/
theorem claim_C4_two_adds_merge (cart : ShoppingCart) (product : Product) (q1 q2 : Int)
    (hno : ∀ item ∈ cart.items, item.product.product_id ≠ product.product_id)
    (h1 : 1 ≤ q1) (h2 : 1 ≤ q2) (hsum : q1 + q2 ≤ product.stock) :
    (cart.add_item product q1).1 = true ∧
      ((cart.add_item product q1).2.add_item product q2).1 = true ∧
      ((cart.add_item product q1).2.add_item product q2).2.items =
        cart.items ++ [⟨product, q1 + q2⟩] ∧
      (((cart.add_item product q1).2.add_item product q2).2.items.filter
          (fun item => decide (item.product.product_id = product.product_id))) =
        [⟨product, q1 + q2⟩] := by
  have hstock : 0 < product.stock := by linarith
  have hq1 : ¬product.stock < q1 := by simp only [not_lt]; linarith
  have hq2 : ¬product.stock < q2 := by simp only [not_lt]; linarith
  have step1 : cart.add_item product q1 =
      (true, { cart with items := cart.items ++ [⟨product, q1⟩] }) := by
    simp [ShoppingCart.add_item, Product.is_available, hstock, hq1, mergeLoop_eq_none hno]
  have hmerge : mergeLoop product q2 (cart.items ++ [⟨product, q1⟩]) =
      some (cart.items ++ [⟨product, q1 + q2⟩]) :=
    mergeLoop_append_match product q2 ⟨product, q1⟩ hno rfl
  have step2 : ({ cart with items := cart.items ++ [⟨product, q1⟩] } :
        ShoppingCart).add_item product q2 =
      (true, { cart with items := cart.items ++ [⟨product, q1 + q2⟩] }) := by
    simp [ShoppingCart.add_item, Product.is_available, hstock, hq2, hmerge,
      OrderItem.update_quantity]
  rw [step1]
  refine ⟨rfl, ?_, ?_, ?_⟩
  · rw [step2]
  · rw [step2]
  · rw [step2]
    simp only [List.filter_append]
    rw [List.filter_eq_nil_iff.mpr (by intro a ha; simpa using hno a ha)]
    simp

/-- Witness for C4: an empty cart, a product with stock 50, and quantities 30
then 15 produce the single merged line with quantity 45. -/
theorem claim_C4_witness :
    ((ShoppingCart.add_item ((ShoppingCart.add_item ⟨1, []⟩ ⟨1, 3, 50⟩ 30).2)
        ⟨1, 3, 50⟩ 15).2).items = [⟨⟨1, 3, 50⟩, 45⟩] := by
  have h := claim_C4_two_adds_merge ⟨1, []⟩ ⟨1, 3, 50⟩ 30 15 (by simp)
    (by decide) (by decide) (by decide)
  simpa using h.2.2.1

/-! ### The payment module (`payment.py`)

Python mutable lists are modelled by a heap `Nat → List OrderItem` mapping a
reference (the object identity of a list) to its current contents; assigning a
list to a field stores the reference, and `storeAppend` is an in-place
mutation of the referenced list.  The three class-level counters
(`Payment._payment_counter`, `Invoice._invoice_counter`,
`Receipt._receipt_counter`) are modelled as an explicit `Counters` state
threaded through the constructors. -/

/-- The `s[-4:]` slice of `BankDebit.__init__` (`payment.py`, line 40): the
last four characters, or the whole string when it is shorter. -/
def strLast4 (s : String) : String :=
  ⟨s.data.drop (s.data.length - 4)⟩

/-- The three payment-method variants (`payment.py`, lines 22-61).  For
`bankDebit` the stored field is `self.account_number`, which
`BankDebit.__init__` has already redacted to the last four characters; the
redacting constructor itself is `mkBankDebit`. -/
inductive PaymentMethod where
  | digitalWallet (wallet_provider : String)
  | bankDebit (account_number : String)
  | payPal (email : String)
  deriving DecidableEq, Repr

/-- `BankDebit.__init__` (`payment.py`, lines 39-40):
`self.account_number = account_number[-4:]`. -/
def mkBankDebit (account_number : String) : PaymentMethod :=
  PaymentMethod.bankDebit (strLast4 account_number)

/-- `process_payment` of each variant (`payment.py`, lines 28-30, 42-44,
56-58): every variant unconditionally returns `True`. -/
def PaymentMethod.process_payment : PaymentMethod → Rat → Bool
  | .digitalWallet _, _ => true
  | .bankDebit _, _ => true
  | .payPal _, _ => true

/-- `get_method_name` of each variant (`payment.py`, lines 32-33, 46-47,
60-61). -/
def PaymentMethod.get_method_name : PaymentMethod → String
  | .digitalWallet wallet_provider => "Digital Wallet (" ++ wallet_provider ++ ")"
  | .bankDebit account_number => "Bank Debit (****" ++ account_number ++ ")"
  | .payPal email => "PayPal (" ++ email ++ ")"

/-- The three class-level construction counters of `payment.py`. -/
structure Counters where
  payment_counter : Nat
  invoice_counter : Nat
  receipt_counter : Nat
  deriving DecidableEq, Repr

/-- Their initial values: `Payment._payment_counter = 1` (line 160),
`Invoice._invoice_counter = 1000` (line 67),
`Receipt._receipt_counter = 2000` (line 105). -/
def Counters.init : Counters :=
  ⟨1, 1000, 2000⟩

/-- In-place mutation of the list object at reference `r` (e.g. a Python
`lst.append(x)` on the list that was passed around by reference). -/
def storeAppend (r : Nat) (x : OrderItem) (store : Nat → List OrderItem) :
    Nat → List OrderItem :=
  fun s => if s = r then store s ++ [x] else store s

/-- `Invoice.__init__` state (`payment.py`, lines 69-79): `self.items = items`
keeps the caller's list reference (`itemsRef`), with no copy.  The
`datetime.now()` dates are omitted. -/
structure Invoice where
  invoice_number : Nat
  order_id : Int
  customer_name : String
  itemsRef : Nat
  total_amount : Rat
  status : String
  deriving DecidableEq, Repr

/-- `Invoice.__init__` (`payment.py`, lines 69-79): take the current invoice
counter as the number, bump the counter, start `Unpaid`. -/
def Invoice.create (order_id : Int) (customer_name : String) (itemsRef : Nat)
    (total_amount : Rat) (cs : Counters) : Invoice × Counters :=
  (⟨cs.invoice_counter, order_id, customer_name, itemsRef, total_amount, "Unpaid"⟩,
    { cs with invoice_counter := cs.invoice_counter + 1 })

/-- `Invoice.mark_as_paid` (`payment.py`, lines 81-83). -/
def Invoice.mark_as_paid (inv : Invoice) : Invoice :=
  { inv with status := "Paid" }

/-- The dictionary returned by `Invoice.generate_invoice` (`payment.py`,
lines 85-96), minus the two date fields. -/
structure InvoiceDict where
  invoice_number : String
  order_id : Int
  customer_name : String
  items : List OrderItem
  total_amount : Rat
  status : String
  deriving DecidableEq, Repr

/-- `Invoice.generate_invoice` (`payment.py`, lines 85-96): the `items` entry
is `self.items`, i.e. the current contents of the referenced list. -/
def Invoice.generate_invoice (inv : Invoice) (store : Nat → List OrderItem) :
    InvoiceDict :=
  { invoice_number := "INV-" ++ toString inv.invoice_number,
    order_id := inv.order_id,
    customer_name := inv.customer_name,
    items := store inv.itemsRef,
    total_amount := inv.total_amount,
    status := inv.status }

/-- `Receipt.__init__` state (`payment.py`, lines 107-117), minus the
`datetime.now()` issue date. -/
structure Receipt where
  receipt_number : Nat
  payment_id : Nat
  order_id : Int
  customer_name : String
  amount : Rat
  payment_method : String
  deriving DecidableEq, Repr

/-- `Receipt.__init__` (`payment.py`, lines 107-117): take the current receipt
counter as the number and bump the counter. -/
def Receipt.create (payment_id : Nat) (order_id : Int) (customer_name : String)
    (amount : Rat) (payment_method : String) (cs : Counters) : Receipt × Counters :=
  (⟨cs.receipt_counter, payment_id, order_id, customer_name, amount, payment_method⟩,
    { cs with receipt_counter := cs.receipt_counter + 1 })

/-- The dictionary returned by `Receipt.generate_receipt` (`payment.py`,
lines 119-130), minus the date field. -/
structure ReceiptDict where
  receipt_number : String
  payment_id : Nat
  order_id : Int
  customer_name : String
  amount_paid : Rat
  payment_method : String
  status : String
  deriving DecidableEq, Repr

/-- `Receipt.generate_receipt` (`payment.py`, lines 119-130). -/
def Receipt.generate_receipt (r : Receipt) : ReceiptDict :=
  { receipt_number := "RCP-" ++ toString r.receipt_number,
    payment_id := r.payment_id,
    order_id := r.order_id,
    customer_name := r.customer_name,
    amount_paid := r.amount,
    payment_method := r.payment_method,
    status := "Paid" }

/-- `Payment.__init__` state (`payment.py`, lines 162-171), minus the
`datetime.now()` payment date. -/
structure Payment where
  payment_id : Nat
  order_id : Int
  amount : Rat
  payment_method : PaymentMethod
  status : String
  receipt : Option Receipt
  deriving DecidableEq, Repr

/-- `Payment.__init__` (`payment.py`, lines 162-171): number from the payment
counter, status `Pending`, no receipt. -/
def Payment.create (order_id : Int) (amount : Rat) (payment_method : PaymentMethod)
    (cs : Counters) : Payment × Counters :=
  (⟨cs.payment_counter, order_id, amount, payment_method, "Pending", none⟩,
    { cs with payment_counter := cs.payment_counter + 1 })

/-- `Payment.process` (`payment.py`, lines 173-177). -/
def Payment.process (p : Payment) : Bool × Payment :=
  let success := p.payment_method.process_payment p.amount
  (success, { p with status := if success then "Success" else "Failed" })

/-- `Payment.generate_receipt` (`payment.py`, lines 179-190): only a
`Success` payment constructs a receipt (consuming the receipt counter), stores
it and returns it; otherwise `None` is returned and nothing changes. -/
def Payment.generate_receipt (p : Payment) (customer_name : String) (cs : Counters) :
    Option Receipt × Payment × Counters :=
  if p.status = "Success" then
    let rc := Receipt.create p.payment_id p.order_id customer_name p.amount
      p.payment_method.get_method_name cs
    (some rc.1, { p with receipt := some rc.1 }, rc.2)
  else
    (none, p, cs)

/-! ### Claims C6, C7, C8, C9, C2 -/

/-- Claim C6: a freshly constructed Payment has status `Pending` for every
payment-method variant; `process()` returns true and sets the status to
`Success` (every variant's `process_payment` reports success); and
`generate_receipt` never changes the status, so `Success`/`Failed` arise only
through `process()`. -/
theorem claim_C6_payment_lifecycle :
    ∀ (cs : Counters) (order_id : Int) (amount : Rat) (m : PaymentMethod),
      (Payment.create order_id amount m cs).1.status = "Pending" ∧
        ((Payment.create order_id amount m cs).1.process).1 = true ∧
        ((Payment.create order_id amount m cs).1.process).2.status = "Success" ∧
        ∀ (p : Payment) (customer_name : String) (cs2 : Counters),
          ((p.generate_receipt customer_name cs2).2.1).status = p.status := by
  intro cs order_id amount m
  refine ⟨rfl, ?_, ?_, ?_⟩
  · cases m <;> rfl
  · cases m <;> rfl
  · intro p customer_name cs2
    unfold Payment.generate_receipt
    split <;> rfl

/-- Claim C7: `generate_receipt` on a `Pending` or `Failed` payment returns
`None` and changes nothing (stored receipt, payment, counters all unchanged);
on a `Success` payment it constructs a receipt, stores it, returns it, and its
amount equals the payment's amount. -/
theorem claim_C7_generate_receipt (p : Payment) (customer_name : String) (cs : Counters) :
    ((p.status = "Pending" ∨ p.status = "Failed") →
        p.generate_receipt customer_name cs = (none, p, cs)) ∧
      (p.status = "Success" →
        ∃ r : Receipt,
          p.generate_receipt customer_name cs =
            (some r, { p with receipt := some r },
              { cs with receipt_counter := cs.receipt_counter + 1 }) ∧
            r.amount = p.amount) := by
  constructor
  · intro h
    have hne : ¬p.status = "Success" := by rcases h with h | h <;> simp [h]
    simp [Payment.generate_receipt, hne]
  · intro h
    exact ⟨(Receipt.create p.payment_id p.order_id customer_name p.amount
        p.payment_method.get_method_name cs).1,
      by simp [Payment.generate_receipt, h, Receipt.create], rfl⟩

/-- Witness for C7: a concrete pending payment yields no receipt and is left
unchanged; the same payment with status `Success` yields a stored receipt
whose amount is the payment's 20. -/
theorem claim_C7_witness :
    (Payment.generate_receipt ⟨1, 7, 20, PaymentMethod.payPal "a@b.com", "Pending", none⟩
        "Jane" Counters.init =
      (none, ⟨1, 7, 20, PaymentMethod.payPal "a@b.com", "Pending", none⟩, Counters.init)) ∧
      ∃ r : Receipt,
        Payment.generate_receipt ⟨1, 7, 20, PaymentMethod.payPal "a@b.com", "Success", none⟩
            "Jane" Counters.init =
          (some r, ⟨1, 7, 20, PaymentMethod.payPal "a@b.com", "Success", some r⟩,
            ⟨1, 1000, 2001⟩) ∧
          r.amount = 20 := by
  refine ⟨(claim_C7_generate_receipt ⟨1, 7, 20, PaymentMethod.payPal "a@b.com", "Pending", none⟩
      "Jane" Counters.init).1 (Or.inl rfl), ?_⟩
  obtain ⟨r, h1, h2⟩ := (claim_C7_generate_receipt
    ⟨1, 7, 20, PaymentMethod.payPal "a@b.com", "Success", none⟩ "Jane" Counters.init).2 rfl
  exact ⟨r, h1, h2⟩

/-- Claim C8: invoice numbers are taken from a counter starting at 1000 and
receipt numbers from an independent counter starting at 2000; each
construction consumes exactly its own counter (incrementing it by 1 and
leaving the other counters untouched); consecutive constructions from the
initial state number 1000 then 1001 (invoices) and 2000 (receipts); and the
projections render the numbers literally as `INV-<n>` and `RCP-<n>`. -/
theorem claim_C8_counters_and_numbering :
    (∀ (order_id : Int) (customer_name : String) (itemsRef : Nat) (total_amount : Rat)
        (cs : Counters),
        (Invoice.create order_id customer_name itemsRef total_amount cs).1.invoice_number
            = cs.invoice_counter ∧
          (Invoice.create order_id customer_name itemsRef total_amount cs).2
            = { cs with invoice_counter := cs.invoice_counter + 1 }) ∧
      (∀ (payment_id : Nat) (order_id : Int) (customer_name : String) (amount : Rat)
        (method_name : String) (cs : Counters),
        (Receipt.create payment_id order_id customer_name amount method_name cs).1.receipt_number
            = cs.receipt_counter ∧
          (Receipt.create payment_id order_id customer_name amount method_name cs).2
            = { cs with receipt_counter := cs.receipt_counter + 1 }) ∧
      (Invoice.create 1 "A" 0 0 Counters.init).1.invoice_number = 1000 ∧
      (Invoice.create 2 "B" 0 0 ((Invoice.create 1 "A" 0 0 Counters.init).2)).1.invoice_number
        = 1001 ∧
      ((Invoice.create 1 "A" 0 0 Counters.init).2).receipt_counter = 2000 ∧
      (Receipt.create 1 1 "A" 0 "m" Counters.init).1.receipt_number = 2000 ∧
      ((Receipt.create 1 1 "A" 0 "m" Counters.init).2).invoice_counter = 1000 ∧
      (∀ (inv : Invoice) (store : Nat → List OrderItem),
        (inv.generate_invoice store).invoice_number = "INV-" ++ toString inv.invoice_number) ∧
      (∀ r : Receipt, r.generate_receipt.receipt_number = "RCP-" ++ toString r.receipt_number) ∧
      ((Invoice.create 1 "A" 0 0 Counters.init).1.generate_invoice
          (fun _ => [])).invoice_number = "INV-1000" ∧
      (Receipt.create 1 1 "A" 0 "m" Counters.init).1.generate_receipt.receipt_number
        = "RCP-2000" := by
  refine ⟨fun _ _ _ _ _ => ⟨rfl, rfl⟩, fun _ _ _ _ _ _ => ⟨rfl, rfl⟩, rfl, rfl, rfl, rfl, rfl,
    fun _ _ => rfl, fun _ => rfl, by decide, by decide⟩

/-- Counterexample to claim C9: the account number `"1234"` is four characters
long, so `BankDebit` retains it whole and `get_method_name` returns
`Bank Debit (****1234)`, a string that does contain the full account
number. -/
theorem claim_C9_counterexample :
    mkBankDebit "1234" = PaymentMethod.bankDebit "1234" ∧
      List.IsInfix "1234".data ((mkBankDebit "1234").get_method_name).data := by
  exact ⟨by decide, by decide⟩

/-- Amended claim C9: `BankDebit` retains exactly the last four characters of
the account number (the whole string when it is no longer than four), so any
two account numbers agreeing on that suffix produce identical objects and
identical `get_method_name` strings — the output reveals nothing beyond the
last four characters.  The original "never contains the full account number"
fails precisely when the account number is at most four characters (see the
counterexample). -/
theorem claim_C9_amended_redaction (a1 a2 : String) (h : strLast4 a1 = strLast4 a2) :
    mkBankDebit a1 = mkBankDebit a2 ∧
      (mkBankDebit a1).get_method_name = (mkBankDebit a2).get_method_name ∧
      mkBankDebit a1 = PaymentMethod.bankDebit (strLast4 a1) := by
  have e : mkBankDebit a1 = mkBankDebit a2 := by unfold mkBankDebit; rw [h]
  exact ⟨e, by rw [e], rfl⟩

/-- Witness for the amended C9: two distinct account numbers sharing the
suffix `1234` give the same redacted method name. -/
theorem claim_C9_amended_witness :
    strLast4 "AA1234" = strLast4 "BB1234" ∧
      PaymentMethod.get_method_name (mkBankDebit "AA1234")
        = PaymentMethod.get_method_name (mkBankDebit "BB1234") :=
  ⟨by decide, (claim_C9_amended_redaction "AA1234" "BB1234" (by decide)).2.1⟩

/-- Counterexample to claim C2: an invoice is created over the list at
reference 0; appending one more order item to that same list afterwards
changes the `items` entry of `generate_invoice`'s output — the invoice holds
the live reference, not a copy. -/
theorem claim_C2_counterexample :
    ((Invoice.create 7 "Jane" 0 6 Counters.init).1.generate_invoice
        (storeAppend 0 ⟨⟨2, 1, 9⟩, 1⟩ (fun r => if r = 0 then [⟨⟨1, 3, 50⟩, 2⟩] else []))).items
      ≠ ((Invoice.create 7 "Jane" 0 6 Counters.init).1.generate_invoice
        (fun r => if r = 0 then [⟨⟨1, 3, 50⟩, 2⟩] else [])).items := by
  decide

/-- Amended claim C2: `Invoice.__init__` stores the list reference it is
handed (`self.items = items`), not a copy, while the total is copied by
value.  Consequently a later in-place mutation of that list is visible in the
invoice: after appending `x`, `generate_invoice` lists the old contents plus
`x`, whereas `total_amount` keeps its construction-time value. -/
theorem claim_C2_amended_live_reference :
    ∀ (order_id : Int) (customer_name : String) (itemsRef : Nat) (total_amount : Rat)
      (cs : Counters) (store : Nat → List OrderItem) (x : OrderItem),
      ((Invoice.create order_id customer_name itemsRef total_amount cs).1.generate_invoice
          (storeAppend itemsRef x store)).items = store itemsRef ++ [x] ∧
        ((Invoice.create order_id customer_name itemsRef total_amount cs).1.generate_invoice
          (storeAppend itemsRef x store)).total_amount = total_amount := by
  intro order_id customer_name itemsRef total_amount cs store x
  exact ⟨by simp [Invoice.create, Invoice.generate_invoice, storeAppend], rfl⟩

/-! ### The database module (`database.py`) and claim C10

Python's `dict` assignment `d[k] = v` keeps at most one value per key,
replacing in place; it is embedded as an association list with a
replace-or-append insert.  Only the `invoices` store is modelled: no claim
touches the product/user/order/payment stores, which have the same shape. -/

/-- Python `d[k] = v` on an association list: replace the first binding of `k`
in place, or append a new binding. -/
def dictInsert {α : Type} (k : Int) (v : α) : List (Int × α) → List (Int × α)
  | [] => [(k, v)]
  | (k0, v0) :: rest =>
    if k0 = k then (k, v) :: rest else (k0, v0) :: dictInsert k v rest

/-- Python `d.get(k)` on an association list. -/
def dictGet {α : Type} (k : Int) : List (Int × α) → Option α
  | [] => none
  | (k0, v0) :: rest => if k0 = k then some v0 else dictGet k rest

/-- The `invoices` store of the singleton `Database` (`database.py`,
line 29), which `__init__` creates empty (the sample data seeds no
invoices). -/
structure Database where
  invoices : List (Int × Invoice)
  deriving Repr

/-- `Database.__init__` (`database.py`, lines 20-32): `self.invoices = {}`. -/
def Database.init : Database :=
  ⟨[]⟩

/-- `Database.add_invoice` (`database.py`, lines 122-124):
`self.invoices[invoice.order_id] = invoice`. -/
def Database.add_invoice (db : Database) (invoice : Invoice) : Database :=
  { db with invoices := dictInsert invoice.order_id invoice db.invoices }

/-- `Database.get_invoice_by_order` (`database.py`, lines 126-128):
`self.invoices.get(order_id)`. -/
def Database.get_invoice_by_order (db : Database) (order_id : Int) : Option Invoice :=
  dictGet order_id db.invoices

/-- Lookup after a dict insert: the inserted key maps to the new value, every
other key is untouched. -/
theorem dictGet_dictInsert {α : Type} (k k' : Int) (v : α) (l : List (Int × α)) :
    dictGet k' (dictInsert k v l) = if k' = k then some v else dictGet k' l := by
  induction l with
  | nil =>
    by_cases h : k' = k
    · subst h; simp [dictInsert, dictGet]
    · simp [dictInsert, dictGet, h, Ne.symm h]
  | cons hd tl ih =>
    obtain ⟨k0, v0⟩ := hd
    by_cases h0 : k0 = k
    · subst h0
      by_cases h : k' = k0
      · subst h; simp [dictInsert, dictGet]
      · simp [dictInsert, dictGet, h, Ne.symm h]
    · by_cases h : k' = k0
      · subst h
        simp [dictInsert, dictGet, h0]
      · simp [dictInsert, dictGet, h0, h, Ne.symm h, ih]

/-- Every key of `dictInsert k v l` is `k` or a key of `l`. -/
theorem dictInsert_keys_subset {α : Type} (k : Int) (v : α) (l : List (Int × α)) :
    ∀ k0 ∈ (dictInsert k v l).map Prod.fst, k0 = k ∨ k0 ∈ l.map Prod.fst := by
  induction l with
  | nil => simp [dictInsert]
  | cons hd tl ih =>
    obtain ⟨k1, v1⟩ := hd
    intro k0 hk0
    by_cases h : k1 = k
    · subst h
      simp only [dictInsert, eq_self_iff_true, if_true, List.map_cons, List.mem_cons] at hk0 ⊢
      exact hk0.imp id Or.inr
    · simp only [dictInsert, if_neg h, List.map_cons, List.mem_cons] at hk0 ⊢
      exact hk0.elim (fun e => Or.inr (Or.inl e)) (fun hm => (ih k0 hm).imp id Or.inr)

/-- A dict insert keeps the keys of the association list pairwise distinct. -/
theorem dictInsert_nodup_keys {α : Type} (k : Int) (v : α) (l : List (Int × α))
    (h : (l.map Prod.fst).Nodup) : ((dictInsert k v l).map Prod.fst).Nodup := by
  induction l with
  | nil => simp [dictInsert]
  | cons hd tl ih =>
    obtain ⟨k1, v1⟩ := hd
    simp only [List.map_cons, List.nodup_cons] at h
    by_cases hk : k1 = k
    · subst hk
      simpa [dictInsert, List.nodup_cons] using h
    · simp only [dictInsert, if_neg hk, List.map_cons, List.nodup_cons]
      refine ⟨fun hmem => ?_, ih h.2⟩
      rcases dictInsert_keys_subset k v tl k1 hmem with rfl | hmem
      · exact hk rfl
      · exact h.1 hmem

/-- `find?` on a list with one element appended: the earlier elements win,
the appended element is found last. -/
theorem find_append_singleton {α : Type} (p : α → Bool) (a : α) (l : List α) :
    (l ++ [a]).find? p =
      match l.find? p with
      | some x => some x
      | none => if p a then some a else none := by
  induction l with
  | nil => cases hpa : p a <;> simp [List.find?_cons, hpa]
  | cons b l ih => cases hpb : p b <;> simp [List.find?_cons, hpb, ih]

/-- Replaying a list of `add_invoice` calls: the lookup returns the most
recent invoice added for the order id, falling back to the prior database. -/
theorem addAll_get_invoice (invs : List Invoice) (db : Database) (oid : Int) :
    Database.get_invoice_by_order
        (invs.foldl (fun db inv => db.add_invoice inv) db) oid =
      match invs.reverse.find? (fun inv => decide (inv.order_id = oid)) with
      | some inv => some inv
      | none => db.get_invoice_by_order oid := by
  induction invs generalizing db with
  | nil => simp
  | cons inv rest ih =>
    simp only [List.foldl_cons, List.reverse_cons]
    rw [ih, find_append_singleton]
    cases hfind : rest.reverse.find? (fun inv => decide (inv.order_id = oid)) with
    | some x => rfl
    | none =>
      by_cases h : inv.order_id = oid
      · simp [Database.get_invoice_by_order, Database.add_invoice,
          dictGet_dictInsert, h]
      · simp [Database.get_invoice_by_order, Database.add_invoice,
          dictGet_dictInsert, h, Ne.symm h]

/-- Replaying `add_invoice` calls keeps the order-id keys pairwise
distinct. -/
theorem addAll_nodup_keys (invs : List Invoice) (db : Database)
    (h : (db.invoices.map Prod.fst).Nodup) :
    (((invs.foldl (fun db inv => db.add_invoice inv) db).invoices.map Prod.fst).Nodup) := by
  induction invs generalizing db with
  | nil => simpa using h
  | cons inv rest ih =>
    exact ih _ (dictInsert_nodup_keys _ _ _ h)

/-- Claim C10: the database stores at most one invoice per order id.
`add_invoice` with an already present order id replaces the stored invoice
(other order ids are untouched); after any sequence of `add_invoice` calls
from the initial database, `get_invoice_by_order` returns the most recently
added invoice for that order — or nothing if none was added — and the stored
order-id keys stay pairwise distinct. -/
theorem claim_C10_one_invoice_per_order :
    (∀ (db : Database) (inv : Invoice) (oid : Int),
        (db.add_invoice inv).get_invoice_by_order oid =
          if oid = inv.order_id then some inv else db.get_invoice_by_order oid) ∧
      (∀ (invs : List Invoice) (oid : Int),
        Database.get_invoice_by_order
            (invs.foldl (fun db inv => db.add_invoice inv) Database.init) oid =
          invs.reverse.find? (fun inv => decide (inv.order_id = oid))) ∧
      (∀ invs : List Invoice,
        (((invs.foldl (fun db inv => db.add_invoice inv) Database.init).invoices.map
            Prod.fst).Nodup)) := by
  refine ⟨?_, ?_, ?_⟩
  · intro db inv oid
    exact dictGet_dictInsert inv.order_id oid inv db.invoices
  · intro invs oid
    rw [addAll_get_invoice]
    cases hfind : invs.reverse.find? (fun inv => decide (inv.order_id = oid)) <;> rfl
  · intro invs
    exact addAll_nodup_keys invs Database.init (by simp [Database.init])
